import Mathlib

/-!
Verification of the karmona-backend astrological ingestion and retrieval
pipeline: a shallow embedding of the Python services
(`scraping_sources.py`, `ephemeris_service.py`, `daily_scraper.py`,
`vector_retrieval_base.py`, `supabase_vector_service.py`,
`kb_retrieval_service.py`) together with theorems about the data model and
the operations.  Real numbers of the source (ecliptic longitudes, daily
motions, similarity scores) are modelled by rationals; external services
(the Swiss Ephemeris backend, the Bedrock embedding service, the Supabase
store) are modelled as explicit function parameters returning
`Except`/`Option` values.
-/

namespace Karmona

/-- Python `round(x, k)`: round `x` to `k` decimal places.  Python rounds
half to even while `round` here rounds half up; the two agree away from
exact half-way points, and no statement below depends on a half-way case. -/
def roundTo (k : ℕ) (x : ℚ) : ℚ := (round (x * 10 ^ k) : ℚ) / 10 ^ k

/-- Python `x % m` on reals (for `m > 0`): the representative of `x` in
`[0, m)`, namely `x - m * ⌊x / m⌋`. -/
def pymod (x m : ℚ) : ℚ := x - m * ⌊x / m⌋

/-- Python `str.capitalize()`: first character upper-cased, the rest
lower-cased. -/
def pyCapitalize (s : String) : String :=
  match s.data with
  | [] => s
  | c :: cs => String.mk (c.toUpper :: cs.map Char.toLower)

/-- The character `\x7b` (opening curly brace). -/
def braceL : Char := Char.ofNat 123

/-- The character `\x7d` (closing curly brace). -/
def braceR : Char := Char.ofNat 125

/-- Replace every occurrence of the six-character placeholder
`\x7bsign\x7d` by `sub`, scanning left to right.  This models Python
`template.format(sign=sub)` for templates whose only format field is
`sign`, which is the only way `str.format` is used by the scraper. -/
def substSign (sub : List Char) : List Char → List Char
  | c :: r1 :: r2 :: r3 :: r4 :: r5 :: rest2 =>
    if c = braceL ∧ r1 = 's' ∧ r2 = 'i' ∧ r3 = 'g' ∧ r4 = 'n' ∧ r5 = braceR then
      sub ++ substSign sub rest2
    else c :: substSign sub (r1 :: r2 :: r3 :: r4 :: r5 :: rest2)
  | c :: rest => c :: substSign sub rest
  | [] => []

/-- String-level wrapper for `substSign`: `template.format(sign=sub)`. -/
def pyFormatSign (template sub : String) : String :=
  String.mk (substSign sub.data template.data)

/-- Whether `pat` occurs as a contiguous run inside the second list
(Python's `pat in s` substring test). -/
def containsChars (pat : List Char) : List Char → Bool
  | [] => pat.isPrefixOf []
  | c :: rest => pat.isPrefixOf (c :: rest) || containsChars pat rest

namespace ScrapingSources

/-- `ZODIAC_SIGNS` from `scraping_sources.py`: all zodiac signs in
lowercase, in zodiacal order. -/
def ZODIAC_SIGNS : List String :=
  ["aries", "taurus", "gemini", "cancer", "leo", "virgo",
   "libra", "scorpio", "sagittarius", "capricorn", "aquarius", "pisces"]

/-- `ScrapingSource.__init__` fields (`scraping_sources.py`). -/
structure ScrapingSource where
  name : String
  source_type : String
  url_pattern : Option String
  url : Option String
  extraction_prompt : String
  frequency : String
  enabled : Bool
deriving DecidableEq, Repr

/-- One entry of the list produced by `ScrapingSource.get_urls`. -/
structure UrlInfo where
  url : String
  context : String
deriving DecidableEq, Repr

/-- Python truthiness of an optional string: `None` and `""` are falsy. -/
def truthy : Option String → Bool
  | none => false
  | some s => !(s == "")

/-- `ScrapingSource.get_urls`: sign-specific sources expand to one URL per
zodiac sign (with the sign substituted into the URL pattern and the
capitalized sign as the context); single-URL source types expand to one URL
with context `"general"`; anything else expands to nothing. -/
def ScrapingSource.get_urls (s : ScrapingSource) : List UrlInfo :=
  if s.source_type = "sign_specific" ∧ truthy s.url_pattern = true then
    ZODIAC_SIGNS.map (fun sign =>
      { url := pyFormatSign (s.url_pattern.getD "") sign
        context := pyCapitalize sign })
  else if (s.source_type = "cosmic_overview" ∨ s.source_type = "article_based") ∧
      truthy s.url = true then
    [{ url := s.url.getD "", context := "general" }]
  else []


/-- The static source catalog `SCRAPING_SOURCES` of `scraping_sources.py`,
one definition per configured source. -/
def src_astrostyle : ScrapingSource :=
  { name := "astrostyle",
    source_type := "sign_specific",
    url_pattern := some "https://astrostyle.com/horoscopes/daily/\x7bsign\x7d/",
    url := none,
    extraction_prompt :=
      "\n        Extract TODAY\x27S COMPLETE daily horoscope for \x7bsign\x7d.\n\n        Include ALL of the following:\n        1. Main horoscope text - extract the FULL text, not a summary\n        2. All planetary influences, transits, and aspects mentioned\n        3. All practical advice, actions, or guidance provided\n        4. Lucky numbers, colors, or other attributes if mentioned\n        5. Love, career, or other specific area forecasts if provided\n        6. Any timing information (morning/afternoon/evening guidance)\n\n        Do NOT summarize or shorten the content. Extract the complete horoscope as written.\n        Only exclude navigation menus, ads, and unrelated site content.\n        ",
    frequency := "daily",
    enabled := true }

def src_cafeastrology_horoscopes : ScrapingSource :=
  { name := "cafeastrology_horoscopes",
    source_type := "sign_specific",
    url_pattern := some "https://cafeastrology.com/\x7bsign\x7ddailyhoroscope.html",
    url := none,
    extraction_prompt :=
      "\n        You are extracting today\x27s horoscope for \x7bsign\x7d from a web page.\n\n        FIND the section that says \"Today\x27s \x7bsign\x7d Horoscope\" or \"\x7bsign\x7d Daily Horoscope\" followed by today\x27s date.\n\n        Extract EVERYTHING in that horoscope section, word-for-word:\n        1. The complete horoscope text (usually 2-3 paragraphs) - copy it EXACTLY\n        2. Any ratings like \"Creativity: Excellent ~ Love: Good ~ Business: Good\"\n        3. Any planetary alignments or aspects mentioned (Mercury-Mars, Sun-Saturn, etc.)\n\n        IGNORE: Navigation menus, links to other horoscopes, \"choose another sign\" sections, general astrology info\n\n        COPY the horoscope paragraphs verbatim. Do not summarize or paraphrase.\n        Include the complete text as it appears on the page.\n        ",
    frequency := "daily",
    enabled := true }

def src_cafeastrology_cosmic_overview : ScrapingSource :=
  { name := "cafeastrology_cosmic_overview",
    source_type := "cosmic_overview",
    url_pattern := none,
    url := some "https://www.cafeastrology.com/",
    extraction_prompt :=
      "\n        Extract TODAY\x27s cosmic information:\n        1. Current moon phase and moon sign\n        2. Planetary aspects happening today\n        3. Any planets in retrograde\n        4. Overall cosmic energy or theme for the day\n\n        Be specific about today\x27s astrological events.\n        ",
    frequency := "daily",
    enabled := false }

def src_astro_seek : ScrapingSource :=
  { name := "astro_seek",
    source_type := "cosmic_overview",
    url_pattern := none,
    url := some "https://www.astro-seek.com/",
    extraction_prompt :=
      "\n        Extract current planetary positions and aspects:\n        1. Today\x27s major planetary transits\n        2. Moon position and phase\n        3. Any significant astrological events today\n        \n        Focus on actionable astrological insights.\n        ",
    frequency := "daily",
    enabled := true }

def src_tinybuddha : ScrapingSource :=
  { name := "tinybuddha",
    source_type := "cosmic_overview",
    url_pattern := none,
    url := some "https://tinybuddha.com/",
    extraction_prompt :=
      "\n        Extract recent spiritual wisdom and mindfulness guidance:\n        1. Featured inspirational teaching or quote\n        2. Practical mindfulness suggestions\n        3. Guidance on self-reflection or intention-setting\n\n        Summarize in 2-3 sentences with warm, grounding energy.\n        ",
    frequency := "daily",
    enabled := true }

def src_moongiant_phase : ScrapingSource :=
  { name := "moongiant_phase",
    source_type := "cosmic_overview",
    url_pattern := none,
    url := some "https://www.moongiant.com/phase/today/",
    extraction_prompt :=
      "\n        Extract TODAY\x27s complete moon phase information:\n\n        1. Moon Phase Name (e.g., Waning Crescent, Full Moon, New Moon, etc.)\n        2. Illumination percentage\n        3. Moon Age (days into current lunar cycle)\n        4. Current Moon Sign (which zodiac sign the moon is in)\n        5. Moon\x27s position in degrees within that sign\n        6. Moonrise time (if available)\n        7. Moonset time (if available)\n\n        Include ALL details exactly as shown. This is important astrological data.\n        ",
    frequency := "daily",
    enabled := true }

def src_cafeastrology_retrogrades : ScrapingSource :=
  { name := "cafeastrology_retrogrades",
    source_type := "cosmic_overview",
    url_pattern := none,
    url := some "https://cafeastrology.com/calendars/todayinastrologycalendar.html",
    extraction_prompt :=
      "\n        Extract information about planets currently in RETROGRADE motion.\n\n        Look for planetary positions marked with \"R\" (indicating retrograde).\n\n        For each retrograde planet, extract:\n        1. Planet name\n        2. Current zodiac sign\n        3. Exact degree position\n        4. That it\x27s retrograde (marked with R)\n\n        Example format: \"Saturn is retrograde at 26° Pisces\"\n\n        List ALL planets that are currently retrograde.\n        If no planets are retrograde, state \"No planets are currently retrograde.\"\n        ",
    frequency := "daily",
    enabled := true }

def src_timeanddate_eclipses : ScrapingSource :=
  { name := "timeanddate_eclipses",
    source_type := "cosmic_overview",
    url_pattern := none,
    url := some "https://www.timeanddate.com/eclipse/list.html",
    extraction_prompt :=
      "\n        Extract upcoming eclipse information for the next 12 months:\n\n        For each eclipse, extract:\n        1. Eclipse type (Solar or Lunar, Total/Partial/Annular)\n        2. Date\n        3. Brief description if available\n\n        Focus on eclipses happening in 2025 and early 2026.\n        This data changes infrequently so it\x27s okay to get broader timeframe.\n        ",
    frequency := "daily",
    enabled := true }

def src_astrology_com_weekly : ScrapingSource :=
  { name := "astrology_com_weekly",
    source_type := "sign_specific",
    url_pattern := some "https://www.astrology.com/horoscope/weekly/\x7bsign\x7d.html",
    url := none,
    extraction_prompt :=
      "\n        Extract this WEEK\x27s complete horoscope forecast for \x7bsign\x7d.\n\n        Include ALL of the following:\n        1. The full weekly forecast text - extract EVERYTHING, don\x27t summarize\n        2. Week date range if shown\n        3. Key themes and focus areas for the week\n        4. Any specific day-by-day guidance if provided\n        5. Important planetary transits or aspects mentioned for this week\n        6. Timing advice (best days for specific activities)\n\n        Extract the complete text exactly as written. Do not shorten or paraphrase.\n        ",
    frequency := "daily",
    enabled := true }

def SCRAPING_SOURCES : List ScrapingSource :=
  [src_astrostyle, src_cafeastrology_horoscopes, src_cafeastrology_cosmic_overview, src_astro_seek, src_tinybuddha, src_moongiant_phase, src_cafeastrology_retrogrades, src_timeanddate_eclipses, src_astrology_com_weekly]

/-- `get_enabled_sources`: the sources of the catalog with `enabled = True`. -/
def get_enabled_sources : List ScrapingSource :=
  SCRAPING_SOURCES.filter (fun source => source.enabled)

/-- `count_total_scrapes`: total number of scrape targets per run, summed
over the enabled sources. -/
def count_total_scrapes : ℕ :=
  get_enabled_sources.foldl (fun total source => total + source.get_urls.length) 0

end ScrapingSources

namespace EphemerisService

/-- `ZODIAC_SIGNS` from `ephemeris_service.py`: zodiac sign boundaries,
each sign with its starting degree. -/
def ZODIAC_SIGNS : List (String × ℚ) :=
  [("Aries", 0), ("Taurus", 30), ("Gemini", 60), ("Cancer", 90),
   ("Leo", 120), ("Virgo", 150), ("Libra", 180), ("Scorpio", 210),
   ("Sagittarius", 240), ("Capricorn", 270), ("Aquarius", 300), ("Pisces", 330)]

/-- The dictionary returned by `_degrees_to_sign`: the sign name and the
degree within the sign, rounded to two decimal places.  (The purely
presentational `formatted` display string of the source is omitted.) -/
structure SignInfo where
  sign : String
  degrees : ℚ
deriving DecidableEq, Repr

/-- The `for` loop of `_degrees_to_sign`: try each `(sign, start_deg)`
entry in order; `next_start` is the next entry's starting degree, or `360`
for the last entry; the first entry with `start_deg ≤ degrees < next_start`
wins.  The empty-list case is the source's unreachable fallback
`{"sign": "Pisces", "degrees": 0}`. -/
def degreesToSignLoop (n : ℚ) : List (String × ℚ) → SignInfo
  | [] => { sign := "Pisces", degrees := 0 }
  | (sign, start_deg) :: rest =>
    let next_start : ℚ := match rest with
      | (_, s) :: _ => s
      | [] => 360
    if start_deg ≤ n ∧ n < next_start then
      { sign := sign, degrees := roundTo 2 (n - start_deg) }
    else degreesToSignLoop n rest

/-- `EphemerisService._degrees_to_sign`: normalize the ecliptic longitude
to `[0, 360)`, then find its zodiac sign by scanning the boundary table. -/
def degrees_to_sign (degrees : ℚ) : SignInfo :=
  degreesToSignLoop (pymod degrees 360) ZODIAC_SIGNS

/-- The `planets` dictionary of `calculate_positions`: the tracked bodies,
each with its Swiss Ephemeris body number (`swe.SUN = 0`, …,
`swe.TRUE_NODE = 11`, `swe.CHIRON = 15` — constants of the external
`pyswisseph` library). -/
def PLANETS : List (String × ℕ) :=
  [("sun", 0), ("moon", 1), ("mercury", 2), ("venus", 3), ("mars", 4),
   ("jupiter", 5), ("saturn", 6), ("uranus", 7), ("neptune", 8),
   ("pluto", 9), ("north_node", 11), ("chiron", 15)]

/-- One value of the `positions` dictionary built by `calculate_positions`:
either a computed position (longitude rounded to 4 decimals, sign, degrees
within sign, retrograde flag, daily motion rounded to 4 decimals), or the
per-planet error entry produced when the backend raises for that body. -/
inductive PlanetEntry where
  | pos (longitude : ℚ) (sign : String) (degrees_in_sign : ℚ)
      (retrograde : Bool) (daily_motion : ℚ)
  | err (msg : String)
deriving DecidableEq, Repr

/-- The dictionary returned by `calculate_positions` (the wall-clock
`calculated_at` timestamp is omitted). -/
structure EphemerisResult where
  date : String
  julian_day : ℚ
  positions : List (String × PlanetEntry)
deriving DecidableEq, Repr

/-- `EphemerisService.calculate_positions`.  The external backend is the
parameter `calc_ut`, modelling `swe.calc_ut jd body flags`: it returns the
ecliptic longitude and the daily-motion speed for a body number, or an
error when the per-body computation raises.  `swe_available` models the
`pyswisseph` import check and `jd` the `swe.julday(…, 12.0)` Julian day.
Retrograde is the sign test on the unrounded speed (`speed < 0`), while the
stored `daily_motion` is the speed rounded to 4 decimals. -/
def calculate_positions (swe_available : Bool)
    (calc_ut : ℕ → Except String (ℚ × ℚ)) (jd : ℚ) (target_date : String) :
    Except String EphemerisResult :=
  if swe_available = false then .error "Swiss Ephemeris not available"
  else .ok
    { date := target_date
      julian_day := jd
      positions := PLANETS.map (fun p =>
        (p.1, match calc_ut p.2 with
          | .ok (longitude, speed) =>
            let sign_info := degrees_to_sign longitude
            .pos (roundTo 4 longitude) sign_info.sign sign_info.degrees
              (decide (speed < 0)) (roundTo 4 speed)
          | .error e => .err e)) }

/-- The twelve sign names in fixed zodiacal order starting at 0° (Aries),
as the spec describes them. -/
def signs_in_order : List String :=
  ["Aries", "Taurus", "Gemini", "Cancer", "Leo", "Virgo",
   "Libra", "Scorpio", "Sagittarius", "Capricorn", "Aquarius", "Pisces"]

/-- The sign assignment exactly as the spec words it: "integer division of
the (normalized) longitude by 30 degrees with sign names in fixed zodiacal
order starting at 0° (Aries)".  This is the refinement-side definition that
`degrees_to_sign` is compared against. -/
def sign_by_integer_division_spec (longitude : ℚ) : String :=
  signs_in_order.getD (⌊pymod longitude 360 / 30⌋).toNat ""

end EphemerisService

namespace VectorService

open ScrapingSources

/-- `mood_keywords` of `_build_search_query` (identical in
`vector_retrieval_base.py` and `kb_retrieval_service.py`). -/
def mood_keywords : List (String × String) :=
  [("great", "joyful positive uplifting"),
   ("good", "balanced harmonious"),
   ("neutral", "centered grounded"),
   ("sad", "emotional healing transformation")]

/-- `action_themes` of `_build_search_query`. -/
def action_themes : List (String × String) :=
  [("helped", "service compassion"),
   ("loved", "love connection"),
   ("meditated", "meditation spiritual practice"),
   ("worked", "productivity ambition"),
   ("created", "creativity manifestation"),
   ("learned", "wisdom knowledge"),
   ("exercised", "vitality physical energy"),
   ("rested", "restoration self-care"),
   ("argued", "conflict challenge"),
   ("lied", "shadow work truth")]

/-- `VectorRetrievalService._build_search_query`: assemble `query_parts`
(sun-sign part; the moon-sign part guarded by `if moon_sign:` — Python
truthiness, under which both `None` and the empty string are absent;
element part; mood keywords via `mood_keywords.get(mood, mood)`; and the
theme of each of `actions[:3]` via `action_themes.get(action, action)`)
and join them with single spaces.  `MoodType` and `ActionType` are Python
string-literal types, modelled as `String`. -/
def build_search_query (sun_sign : String) (moon_sign : Option String)
    (mood : String) (actions : List String) (zodiac_element : String) : String :=
  let query_parts := [sun_sign ++ " zodiac sign"]
  let query_parts := if ScrapingSources.truthy moon_sign = true then
      query_parts ++ [moon_sign.getD "" ++ " moon sign"]
    else query_parts
  let query_parts := query_parts ++ [zodiac_element ++ " element energy"]
  let query_parts := query_parts ++ [(mood_keywords.lookup mood).getD mood]
  let query_parts := query_parts ++
    (actions.take 3).map (fun action => (action_themes.lookup action).getD action)
  String.intercalate " " query_parts

/-- The search query as the claim describes it: the single string obtained
by concatenating, in order, the sun-sign part, the moon-sign part if a
moon sign is present (a `None` or empty moon sign is absent, as in the
source's `if moon_sign:` truthiness test), the element part, the mood's
keyword mapping, and one theme keyword per each of the first three actions
(later actions contribute nothing).  Refinement-side definition compared
against `build_search_query`. -/
def build_search_query_spec (sun_sign : String) (moon_sign : Option String)
    (mood : String) (actions : List String) (zodiac_element : String) : String :=
  String.intercalate " "
    ([sun_sign ++ " zodiac sign"] ++
     (if ScrapingSources.truthy moon_sign = true then
       [moon_sign.getD "" ++ " moon sign"]
      else []) ++
     [zodiac_element ++ " element energy", (mood_keywords.lookup mood).getD mood] ++
     (actions.take 3).map (fun action => (action_themes.lookup action).getD action))

/-- The `metadata` dictionary attached to a stored document (built in
`DailyScraper._upload_to_s3_and_supabase`). -/
structure Metadata where
  date : String
  source : String
  url : String
  tags : List String
  scraped_at : Option String
  context : String
deriving DecidableEq, Repr

/-- One row of the Supabase `astrology_documents` table, as written by
`store_document`: `id`, `content`, `metadata`, `embedding`, `created_at`. -/
structure DocRecord where
  id : String
  content : String
  metadata : Metadata
  embedding : List ℚ
  created_at : Option String
deriving DecidableEq, Repr

/-- Modelled from the spec: the Supabase `astrology_documents` upsert (the
`.upsert(...).execute()` call in `store_document`; the table and its
primary-key behaviour live in Supabase, not in this repository).  The spec:
"if `id` exists, its record is fully replaced (not merged); if absent, it
is inserted". -/
def upsertRecord (table : List DocRecord) (r : DocRecord) : List DocRecord :=
  if table.any (fun x => x.id == r.id) then
    table.map (fun x => if x.id == r.id then r else x)
  else table ++ [r]

/-- `SupabaseVectorService.store_document`: generate an embedding for the
content (`embed` models `_generate_embedding`; an `Except.error` models the
raised exception, caught by the surrounding `try`, making the method return
`False` and leave the table unchanged), then upsert
`{id, content, metadata, embedding, created_at}`.  Returns the success flag
and the updated table. -/
def store_document (embed : String → Except String (List ℚ))
    (table : List DocRecord) (document_id : String) (content : String)
    (metadata : Metadata) : Bool × List DocRecord :=
  match embed content with
  | .error _ => (false, table)
  | .ok embedding =>
    (true, upsertRecord table
      { id := document_id, content := content, metadata := metadata,
        embedding := embedding, created_at := metadata.scraped_at })

/-- A record as scored by the vector search; the per-record cosine
similarity is abstracted as a function argument below. -/
structure StoredDoc where
  id : String
  content : String
deriving DecidableEq, Repr

/-- Modelled from the spec: the `match_astrology_documents` pgvector RPC
called by `retrieve_context` with `match_threshold` and `match_count` (the
SQL function lives in Supabase, not in this repository).  Per the spec it
"returns up to `maxResults` records with similarity strictly greater than
`similarityThreshold`, ordered by descending similarity"; the in-`src`
client-side filter of `kb_retrieval_service.py` uses the same strict
`score > 0.3` comparison.  `sim` gives each stored record's similarity to
the query embedding. -/
def match_documents (store : List StoredDoc) (sim : StoredDoc → ℚ)
    (threshold : ℚ) (count : ℕ) : List StoredDoc :=
  ((store.filter (fun d => decide (threshold < sim d))).insertionSort
    (fun a b => sim b ≤ sim a)).take count

/-- One row returned by the vector search RPC, as read by
`retrieve_context`: the `content` field and the `similarity` field. -/
structure SearchResult where
  content : String
  similarity : ℚ
deriving DecidableEq, Repr

/-- The two-character stage of the chained sanitization in
`retrieve_context`: one left-to-right `.replace('  ', ' ')` pass. -/
def collapseDoubleSpace : List Char → List Char
  | c :: c2 :: rest2 =>
    if c = ' ' ∧ c2 = ' ' then ' ' :: collapseDoubleSpace rest2
    else c :: collapseDoubleSpace (c2 :: rest2)
  | [c] => [c]
  | [] => []

/-- Python `str.strip()`: drop leading and trailing whitespace. -/
def pyStrip (cs : List Char) : List Char :=
  ((cs.dropWhile Char.isWhitespace).reverse.dropWhile Char.isWhitespace).reverse

/-- The `clean_content` sanitization applied to each chunk by
`SupabaseVectorService.retrieve_context`: newline, carriage return and tab
replaced by spaces (single-character replaces, hence maps), then the
double-space collapse pass, then `strip()`. -/
def sanitizeContent (content : String) : String :=
  String.mk (pyStrip (collapseDoubleSpace
    (((content.data.map (fun c => if c = '\n' then ' ' else c)).map
        (fun c => if c = '\r' then ' ' else c)).map
      (fun c => if c = '\t' then ' ' else c))))

/-- `SupabaseVectorService.retrieve_context`.  `embed` models
`_generate_embedding` and `rpc` models the `match_astrology_documents`
Supabase RPC call (applied to the query embedding, `match_threshold = 0.3`
and `match_count = max_results`); an `Except.error` from either models a
raised exception, caught by the surrounding `try`, which makes the method
return the empty string.  With no results it also returns the empty string;
otherwise it formats the chunks as "Insight N: …" lines wrapped in the
enriched-context template. -/
def retrieve_context (embed : String → Except String (List ℚ))
    (rpc : List ℚ → ℚ → ℕ → Except String (List SearchResult))
    (sun_sign : String) (moon_sign : Option String) (mood : String)
    (actions : List String) (zodiac_element : String)
    (max_results : ℕ := 5) : String :=
  let query := build_search_query sun_sign moon_sign mood actions zodiac_element
  match embed query with
  | .error _ => ""
  | .ok query_embedding =>
    match rpc query_embedding (3 / 10) max_results with
    | .error _ => ""
    | .ok results =>
      if results = [] then ""
      else
        let context_chunks := results.enum.map (fun p =>
          "Insight " ++ toString (p.1 + 1) ++ ": " ++ sanitizeContent p.2.content)
        if context_chunks = [] then ""
        else
          "ENRICHED ASTROLOGICAL CONTEXT (from real-time sources):\n\n" ++
          String.intercalate "\n\n" context_chunks ++
          "\n\nUse these insights to personalize the reflection."

end VectorService

namespace DailyScraper

open ScrapingSources

/-- The summary id used by `run_daily_scrape` for each scrape target:
`f"{source_config.name}_{context}"`. -/
def targetId (name context : String) : String := name ++ "_" ++ context

/-- The summary id used for the ephemeris step. -/
def ephemerisId : String := "ephemeris_planetary_positions"

/-- The deterministic document key built in `_upload_to_s3_and_supabase`:
`f"{source}-{context}-{today}"` for sign-specific documents
(`context != "general"`), `f"{source}-{today}"` otherwise. -/
def doc_id (source context date : String) : String :=
  if context ≠ "general" then source ++ "-" ++ context ++ "-" ++ date
  else source ++ "-" ++ date

/-- The S3 backup key built in `_upload_to_s3_and_supabase`:
`daily/<date>/<source>[_<context>].json`. -/
def s3_filename (source context date : String) : String :=
  if context ≠ "general" then
    "daily/" ++ date ++ "/" ++ source ++ "_" ++ context ++ ".json"
  else "daily/" ++ date ++ "/" ++ source ++ ".json"

/-- The document key exactly as the claim words it:
`source[+"_"+context]+"-"+date`, the context segment joined with an
underscore. -/
def doc_id_claimed (source context date : String) : String :=
  source ++ (if context ≠ "general" then "_" ++ context else "") ++ "-" ++ date

/-- The document key as amended: the context segment is joined with a
hyphen, like the date segment. -/
def doc_id_amended (source context date : String) : String :=
  source ++ (if context ≠ "general" then "-" ++ context else "") ++ "-" ++ date

/-- Per-target outcome of the scrape-then-store pipeline inside
`run_daily_scrape`'s loop: `ok` when `scrape_source` returns a document and
`_upload_to_s3_and_supabase` returns `True`; `extract_failed` when
`scrape_source` returns `None` (extraction failure, empty extraction or
exception); `store_failed` when the upload returns `False` (storage failure
or exception).  All non-`ok` outcomes append to `failed` in the source. -/
inductive Outcome where
  | ok
  | extract_failed
  | store_failed
deriving DecidableEq, Repr

/-- The run summary dictionary of `run_daily_scrape` (`results`). -/
structure RunResults where
  date : String
  scraped : List String
  failed : List String
  uploaded : ℕ
  total : ℕ
deriving DecidableEq, Repr

/-- The body of `run_daily_scrape`'s inner loop for one target URL: on
success append the target id to `scraped` and bump `uploaded`, otherwise
append the target id to `failed`; processing then continues either way. -/
def processTarget (outcome : String → String → Outcome) (name context : String)
    (r : RunResults) : RunResults :=
  if outcome name context = .ok then
    { r with scraped := r.scraped ++ [targetId name context],
             uploaded := r.uploaded + 1 }
  else
    { r with failed := r.failed ++ [targetId name context] }

/-- The per-source loop of `run_daily_scrape`: process every URL of
`source.get_urls()` in order. -/
def processSource (outcome : String → String → Outcome) (s : ScrapingSource)
    (r : RunResults) : RunResults :=
  s.get_urls.foldl (fun r u => processTarget outcome s.name u.context r) r

/-- `DailyScraper.run_daily_scrape`: build the summary, run the ephemeris
step (one attempted item; `ephemeris_ok` models
`run_daily_calculation(today).get('success')`, with the exception path
collapsed into `false`), then process each enabled source sequentially.
`outcome` gives the combined scrape-and-store outcome per
`(source name, context)` target; the NASA APOD step is disabled in the
source. -/
def run_daily_scrape (ephemeris_ok : Bool)
    (outcome : String → String → Outcome) (today : String) : RunResults :=
  let results : RunResults :=
    { date := today, scraped := [], failed := [], uploaded := 0,
      total := count_total_scrapes + 1 }
  let results :=
    if ephemeris_ok then
      { results with scraped := results.scraped ++ [ephemerisId],
                     uploaded := results.uploaded + 1 }
    else
      { results with failed := results.failed ++ [ephemerisId] }
  get_enabled_sources.foldl (fun r s => processSource outcome s r) results

/-- All `(source name, context)` pairs attempted by the per-source loops,
in processing order. -/
def attemptsOf (sources : List ScrapingSource) : List (String × String) :=
  sources.flatMap (fun s => s.get_urls.map (fun u => (s.name, u.context)))

/-- Every summary id a run attempts: the ephemeris id followed by the id of
each expanded target of each enabled source. -/
def allAttemptIds : List String :=
  ephemerisId :: (attemptsOf get_enabled_sources).map (fun a => targetId a.1 a.2)

end DailyScraper

/-! ### Arithmetic helper lemmas -/

lemma round_nonneg {y : ℚ} (h : 0 ≤ y) : 0 ≤ round y := by
  rw [round_eq]
  exact Int.le_floor.mpr (by push_cast; linarith)

lemma round_le_of_lt {y : ℚ} {m : ℤ} (h : y < m) : round y ≤ m := by
  rw [round_eq]
  have : ⌊y + 1 / 2⌋ < m + 1 := Int.floor_lt.mpr (by push_cast; linarith)
  omega

lemma round_nonpos_of_neg {y : ℚ} (h : y < 0) : round y ≤ 0 := by
  have := round_le_of_lt (m := 0) (by exact_mod_cast h)
  simpa using this

lemma neg_of_round_neg {y : ℚ} (h : round y < 0) : y < 0 := by
  rw [round_eq] at h
  have : y + 1 / 2 < 0 := Int.floor_lt.mp (by exact_mod_cast h)
  linarith

lemma roundTo_nonneg (k : ℕ) {x : ℚ} (h : 0 ≤ x) : 0 ≤ roundTo k x := by
  unfold roundTo
  have h1 : (0 : ℤ) ≤ round (x * 10 ^ k) := round_nonneg (by positivity)
  have h2 : (0 : ℚ) ≤ (round (x * 10 ^ k) : ℚ) := by exact_mod_cast h1
  positivity

lemma roundTo2_le_30 {x : ℚ} (h : x < 30) : roundTo 2 x ≤ 30 := by
  unfold roundTo
  rw [div_le_iff₀ (by norm_num)]
  have h1 : round (x * 10 ^ 2) ≤ (3000 : ℤ) := round_le_of_lt (by push_cast; linarith)
  calc (round (x * 10 ^ 2) : ℚ) ≤ (3000 : ℚ) := by exact_mod_cast h1
    _ = 30 * 10 ^ 2 := by norm_num

lemma roundTo4_nonpos_of_neg {x : ℚ} (h : x < 0) : roundTo 4 x ≤ 0 := by
  unfold roundTo
  apply div_nonpos_of_nonpos_of_nonneg _ (by positivity)
  have h1 : round (x * 10 ^ 4) ≤ (0 : ℤ) := round_nonpos_of_neg (by nlinarith)
  exact_mod_cast h1

lemma neg_of_roundTo4_neg {x : ℚ} (h : roundTo 4 x < 0) : x < 0 := by
  unfold roundTo at h
  have hp : (0 : ℚ) < 10 ^ 4 := by norm_num
  have h1 : (round (x * 10 ^ 4) : ℚ) < 0 := by
    by_contra hc
    push_neg at hc
    nlinarith [div_nonneg hc (le_of_lt hp)]
  have h3 : round (x * 10 ^ 4) < 0 := by exact_mod_cast h1
  have h4 : x * 10 ^ 4 < 0 := neg_of_round_neg h3
  nlinarith

lemma pymod_nonneg (x : ℚ) {m : ℚ} (hm : 0 < m) : 0 ≤ pymod x m := by
  unfold pymod
  have h1 : ((⌊x / m⌋ : ℚ)) ≤ x / m := Int.floor_le _
  have h2 : (⌊x / m⌋ : ℚ) * m ≤ x := (le_div_iff₀ hm).mp h1
  nlinarith

lemma pymod_lt (x : ℚ) {m : ℚ} (hm : 0 < m) : pymod x m < m := by
  unfold pymod
  have h1 : x / m < (⌊x / m⌋ : ℚ) + 1 := Int.lt_floor_add_one _
  have h2 : x < ((⌊x / m⌋ : ℚ) + 1) * m := (div_lt_iff₀ hm).mp h1
  nlinarith

namespace EphemerisService

lemma floor_div_30 {n : ℚ} (j : ℕ) (h1 : 30 * (j : ℚ) ≤ n)
    (h2 : n < 30 * ((j : ℚ) + 1)) : ⌊n / 30⌋ = (j : ℤ) := by
  rw [Int.floor_eq_iff]
  constructor
  · rw [le_div_iff₀ (show (0 : ℚ) < 30 by norm_num)]
    push_cast
    linarith
  · rw [div_lt_iff₀ (show (0 : ℚ) < 30 by norm_num)]
    push_cast
    linarith

set_option maxHeartbeats 3000000 in
/-- The boundary-table scan of `_degrees_to_sign` agrees, on `[0, 360)`,
with selection by integer division of the longitude by 30. -/
lemma degreesToSignLoop_eq {n : ℚ} (h0 : 0 ≤ n) (h360 : n < 360) :
    degreesToSignLoop n ZODIAC_SIGNS =
      { sign := signs_in_order.getD (⌊n / 30⌋).toNat "",
        degrees := roundTo 2 (n - 30 * ((⌊n / 30⌋).toNat : ℚ)) } := by
  simp only [ZODIAC_SIGNS, degreesToSignLoop]
  by_cases b1 : n < 30
  · rw [if_pos ⟨h0, b1⟩, floor_div_30 0 (by push_cast; linarith) (by push_cast; linarith)]
    simp [signs_in_order]
    try norm_num
  · have a1 : (30 : ℚ) ≤ n := not_lt.mp b1
    rw [if_neg (fun hc => b1 hc.2)]
    by_cases b2 : n < 60
    · rw [if_pos ⟨a1, b2⟩, floor_div_30 1 (by push_cast; linarith) (by push_cast; linarith)]
      simp [signs_in_order]
      try norm_num
    · have a2 : (60 : ℚ) ≤ n := not_lt.mp b2
      rw [if_neg (fun hc => b2 hc.2)]
      by_cases b3 : n < 90
      · rw [if_pos ⟨a2, b3⟩, floor_div_30 2 (by push_cast; linarith) (by push_cast; linarith)]
        simp [signs_in_order]
        try norm_num
      · have a3 : (90 : ℚ) ≤ n := not_lt.mp b3
        rw [if_neg (fun hc => b3 hc.2)]
        by_cases b4 : n < 120
        · rw [if_pos ⟨a3, b4⟩, floor_div_30 3 (by push_cast; linarith) (by push_cast; linarith)]
          simp [signs_in_order]
          try norm_num
        · have a4 : (120 : ℚ) ≤ n := not_lt.mp b4
          rw [if_neg (fun hc => b4 hc.2)]
          by_cases b5 : n < 150
          · rw [if_pos ⟨a4, b5⟩, floor_div_30 4 (by push_cast; linarith) (by push_cast; linarith)]
            simp [signs_in_order]
            try norm_num
          · have a5 : (150 : ℚ) ≤ n := not_lt.mp b5
            rw [if_neg (fun hc => b5 hc.2)]
            by_cases b6 : n < 180
            · rw [if_pos ⟨a5, b6⟩, floor_div_30 5 (by push_cast; linarith) (by push_cast; linarith)]
              simp [signs_in_order]
              try norm_num
            · have a6 : (180 : ℚ) ≤ n := not_lt.mp b6
              rw [if_neg (fun hc => b6 hc.2)]
              by_cases b7 : n < 210
              · rw [if_pos ⟨a6, b7⟩, floor_div_30 6 (by push_cast; linarith) (by push_cast; linarith)]
                simp [signs_in_order]
                try norm_num
              · have a7 : (210 : ℚ) ≤ n := not_lt.mp b7
                rw [if_neg (fun hc => b7 hc.2)]
                by_cases b8 : n < 240
                · rw [if_pos ⟨a7, b8⟩, floor_div_30 7 (by push_cast; linarith) (by push_cast; linarith)]
                  simp [signs_in_order]
                  try norm_num
                · have a8 : (240 : ℚ) ≤ n := not_lt.mp b8
                  rw [if_neg (fun hc => b8 hc.2)]
                  by_cases b9 : n < 270
                  · rw [if_pos ⟨a8, b9⟩, floor_div_30 8 (by push_cast; linarith) (by push_cast; linarith)]
                    simp [signs_in_order]
                    try norm_num
                  · have a9 : (270 : ℚ) ≤ n := not_lt.mp b9
                    rw [if_neg (fun hc => b9 hc.2)]
                    by_cases b10 : n < 300
                    · rw [if_pos ⟨a9, b10⟩, floor_div_30 9 (by push_cast; linarith) (by push_cast; linarith)]
                      simp [signs_in_order]
                      try norm_num
                    · have a10 : (300 : ℚ) ≤ n := not_lt.mp b10
                      rw [if_neg (fun hc => b10 hc.2)]
                      by_cases b11 : n < 330
                      · rw [if_pos ⟨a10, b11⟩, floor_div_30 10 (by push_cast; linarith) (by push_cast; linarith)]
                        simp [signs_in_order]
                        try norm_num
                      · have a11 : (330 : ℚ) ≤ n := not_lt.mp b11
                        rw [if_neg (fun hc => b11 hc.2)]
                        by_cases b12 : n < 360
                        · rw [if_pos ⟨a11, b12⟩, floor_div_30 11 (by push_cast; linarith) (by push_cast; linarith)]
                          simp [signs_in_order]
                          try norm_num
                        · have a12 : (360 : ℚ) ≤ n := not_lt.mp b12
                          exact absurd h360 (not_lt.mpr a12)

/-- Closed form of `degrees_to_sign` for any longitude. -/
lemma degrees_to_sign_eq (d : ℚ) :
    degrees_to_sign d =
      { sign := signs_in_order.getD (⌊pymod d 360 / 30⌋).toNat "",
        degrees := roundTo 2 (pymod d 360 - 30 * ((⌊pymod d 360 / 30⌋).toNat : ℚ)) } :=
  degreesToSignLoop_eq (pymod_nonneg d (by norm_num)) (pymod_lt d (by norm_num))

lemma floor_pymod_div_30_nonneg (d : ℚ) : (0 : ℤ) ≤ ⌊pymod d 360 / 30⌋ :=
  Int.le_floor.mpr (by
    have := pymod_nonneg d (show (0 : ℚ) < 360 by norm_num)
    positivity)

lemma floor_pymod_div_30_lt (d : ℚ) : ⌊pymod d 360 / 30⌋ < 12 :=
  Int.floor_lt.mpr (by
    rw [div_lt_iff₀ (show (0 : ℚ) < 30 by norm_num)]
    have := pymod_lt d (show (0 : ℚ) < 360 by norm_num)
    push_cast
    linarith)

/-- The `degrees` field of `_degrees_to_sign` lies in `[0, 30]`
(the upper bound is attained: rounding to two decimals can reach 30). -/
lemma degrees_to_sign_degrees_bounds (d : ℚ) :
    0 ≤ (degrees_to_sign d).degrees ∧ (degrees_to_sign d).degrees ≤ 30 := by
  rw [degrees_to_sign_eq]
  set n := pymod d 360 with hn
  have h0 : 0 ≤ n := pymod_nonneg d (by norm_num)
  have hk0 : (0 : ℤ) ≤ ⌊n / 30⌋ := floor_pymod_div_30_nonneg d
  have htn : ((⌊n / 30⌋).toNat : ℚ) = ((⌊n / 30⌋ : ℤ) : ℚ) := by
    norm_cast
    omega
  have hflr : ((⌊n / 30⌋ : ℤ) : ℚ) ≤ n / 30 := Int.floor_le _
  have hlt : n / 30 < ((⌊n / 30⌋ : ℤ) : ℚ) + 1 := Int.lt_floor_add_one _
  have hle : ((⌊n / 30⌋ : ℤ) : ℚ) * 30 ≤ n := (le_div_iff₀ (by norm_num)).mp hflr
  have hgt : n < (((⌊n / 30⌋ : ℤ) : ℚ) + 1) * 30 := (div_lt_iff₀ (by norm_num)).mp hlt
  constructor
  · apply roundTo_nonneg
    rw [htn]
    nlinarith
  · apply roundTo2_le_30
    rw [htn]
    nlinarith

lemma getD_signs_mem : ∀ k : ℕ, k < 12 → signs_in_order.getD k "" ∈ signs_in_order := by
  decide

end EphemerisService

namespace EphemerisService

/-- C5: the `(sign, degreeInSign)` pair assigned by
`EphemerisService._degrees_to_sign` is a deterministic function of the
ecliptic longitude (it is a function by construction, returning exactly one
`SignInfo`): the sign is obtained by integer division of the normalized
longitude by 30° with the sign names in fixed zodiacal order starting at 0°
(Aries), the assigned sign is always one of the twelve, and the degree
within the sign is the normalized remainder of that division (rounded to
two decimals, as the source does). -/
theorem C5_sign_by_integer_division (longitude : ℚ) :
    (degrees_to_sign longitude).sign = sign_by_integer_division_spec longitude ∧
    (degrees_to_sign longitude).sign ∈ signs_in_order ∧
    (degrees_to_sign longitude).degrees =
      roundTo 2 (pymod longitude 360 -
        30 * ((⌊pymod longitude 360 / 30⌋).toNat : ℚ)) := by
  rw [degrees_to_sign_eq]
  refine ⟨rfl, ?_, rfl⟩
  apply getD_signs_mem
  have h1 := floor_pymod_div_30_nonneg longitude
  have h2 := floor_pymod_div_30_lt longitude
  omega

/-- C4 (amended): with the astronomical backend available and answering for
every tracked body, `calculate_positions` returns exactly one position
entry per tracked body, in the order of the `planets` dictionary, with
pairwise-distinct body names; every returned `degrees_in_sign` lies in
`[0, 30]` (rounding to two decimals can produce exactly 30 for longitudes
just below a sign boundary); the `retrograde` flag is true iff the
backend's unrounded daily motion is negative, and with respect to the
returned (4-decimal rounded) `daily_motion` this gives:
`daily_motion < 0` implies retrograde, and retrograde implies
`daily_motion ≤ 0`. -/
theorem C4_one_entry_per_body_bounds_retrograde
    (calc_ut : ℕ → Except String (ℚ × ℚ)) (jd : ℚ) (target_date : String)
    (hcalc : ∀ pid, ∃ lon speed, calc_ut pid = .ok (lon, speed)) :
    ∃ r, calculate_positions true calc_ut jd target_date = .ok r ∧
      r.positions.map Prod.fst = PLANETS.map Prod.fst ∧
      (r.positions.map Prod.fst).Nodup ∧
      ∀ p ∈ r.positions, ∃ lon speed pid, (p.1, pid) ∈ PLANETS ∧
        calc_ut pid = .ok (lon, speed) ∧
        p.2 = .pos (roundTo 4 lon) (degrees_to_sign lon).sign
          (degrees_to_sign lon).degrees (decide (speed < 0)) (roundTo 4 speed) ∧
        0 ≤ (degrees_to_sign lon).degrees ∧ (degrees_to_sign lon).degrees ≤ 30 ∧
        (decide (speed < 0) = true ↔ speed < 0) ∧
        (roundTo 4 speed < 0 → decide (speed < 0) = true) ∧
        (decide (speed < 0) = true → roundTo 4 speed ≤ 0) := by
  refine ⟨_, rfl, ?_, ?_, ?_⟩
  · simp [calculate_positions, List.map_map, Function.comp_def]
  · have hmap : (PLANETS.map (fun p =>
        (p.1, match calc_ut p.2 with
          | .ok (longitude, speed) =>
            let sign_info := degrees_to_sign longitude
            PlanetEntry.pos (roundTo 4 longitude) sign_info.sign
              sign_info.degrees (decide (speed < 0)) (roundTo 4 speed)
          | .error e => PlanetEntry.err e))).map Prod.fst
        = PLANETS.map Prod.fst := by
      simp [List.map_map, Function.comp_def]
    simp only [calculate_positions, if_neg (by simp : ¬ true = false)]
    rw [hmap]
    decide
  · intro p hp
    simp only [calculate_positions, if_neg (by simp : ¬ true = false),
      List.mem_map] at hp
    obtain ⟨a, ha, rfl⟩ := hp
    obtain ⟨lon, speed, hcs⟩ := hcalc a.2
    refine ⟨lon, speed, a.2, ha, hcs, by rw [hcs], ?_, ?_, ?_, ?_, ?_⟩
    · exact (degrees_to_sign_degrees_bounds lon).1
    · exact (degrees_to_sign_degrees_bounds lon).2
    · exact decide_eq_true_iff
    · intro h
      exact decide_eq_true (neg_of_roundTo4_neg h)
    · intro h
      exact roundTo4_nonpos_of_neg (of_decide_eq_true h)

/-- Witness for C4 (amended): a concrete backend answering every body with
longitude 0 and daily motion 1. -/
theorem C4_witness :
    (∀ pid : ℕ, ∃ lon speed : ℚ,
      (fun _ : ℕ => (Except.ok ((0 : ℚ), (1 : ℚ)) : Except String (ℚ × ℚ))) pid =
        .ok (lon, speed)) ∧
    (∃ r, calculate_positions true
        (fun _ : ℕ => (Except.ok ((0 : ℚ), (1 : ℚ)) : Except String (ℚ × ℚ)))
        0 "2025-06-01" = .ok r ∧
      r.positions.map Prod.fst = PLANETS.map Prod.fst ∧
      (r.positions.map Prod.fst).Nodup ∧
      ∀ p ∈ r.positions, ∃ lon speed pid, (p.1, pid) ∈ PLANETS ∧
        (fun _ : ℕ => (Except.ok ((0 : ℚ), (1 : ℚ)) : Except String (ℚ × ℚ))) pid =
          .ok (lon, speed) ∧
        p.2 = .pos (roundTo 4 lon) (degrees_to_sign lon).sign
          (degrees_to_sign lon).degrees (decide (speed < 0)) (roundTo 4 speed) ∧
        0 ≤ (degrees_to_sign lon).degrees ∧ (degrees_to_sign lon).degrees ≤ 30 ∧
        (decide (speed < 0) = true ↔ speed < 0) ∧
        (roundTo 4 speed < 0 → decide (speed < 0) = true) ∧
        (decide (speed < 0) = true → roundTo 4 speed ≤ 0)) :=
  ⟨fun _ => ⟨0, 1, rfl⟩,
   C4_one_entry_per_body_bounds_retrograde _ 0 "2025-06-01"
     (fun _ => ⟨0, 1, rfl⟩)⟩

/-- C4 counterexample (to the claim as stated): with the backend reporting
the Sun at ecliptic longitude 29.9999° with daily motion −0.00004°/day, the
returned entry has `degrees_in_sign = 30` — outside `[0, 30)`, because
`round(29.9999, 2) = 30.0` crosses the sign boundary — and has
`retrograde = true` while the returned `daily_motion` is `round(-0.00004,
4) = 0`, which is not negative, refuting `retrograde ↔ dailyMotion < 0` for
the returned field. -/
theorem C4_counterexample :
    (match calculate_positions true
        (fun pid => if pid = 0 then .ok (299999 / 10000, -1 / 25000)
          else .ok (0, 1))
        0 "2025-06-01" with
      | .ok r => r.positions.lookup "sun"
      | .error _ => none) =
      some (.pos (299999 / 10000) "Aries" 30 true 0) ∧
    ¬ ((30 : ℚ) < 30) ∧ ¬ ((0 : ℚ) < 0) := by
  refine ⟨?_, by norm_num, by norm_num⟩
  have hd : degrees_to_sign (299999 / 10000) = { sign := "Aries", degrees := 30 } := by
    rw [degrees_to_sign_eq]
    have hm : pymod ((299999 : ℚ) / 10000) 360 = 299999 / 10000 := by
      unfold pymod
      norm_num
    rw [hm]
    have hf : (⌊(299999 : ℚ) / 10000 / 30⌋ : ℤ) = 0 := by norm_num
    rw [hf]
    simp [signs_in_order, roundTo]
    norm_num [round_eq]
  simp only [calculate_positions, if_neg (by simp : ¬ true = false)]
  simp only [PLANETS, List.map_cons, List.map_nil]
  norm_num [List.lookup, hd, roundTo, round_eq]

end EphemerisService

namespace VectorService

/-- C8: `_build_search_query` returns exactly the string described by the
claim — the space-joined concatenation, in order, of the sun-sign part, the
moon-sign part when a moon sign is present (the source's `if moon_sign:`
truthiness test, under which an empty moon-sign string contributes nothing,
exactly like `None`), the element part, the mood's keyword mapping, and one
theme keyword per each of the first three actions; actions beyond the first
three contribute nothing; mood `"great"` maps to
`"joyful positive uplifting"` and action `"meditated"` to
`"meditation spiritual practice"`. -/
theorem C8_search_query_shape (sun_sign : String) (moon_sign : Option String)
    (mood : String) (actions : List String) (zodiac_element : String) :
    build_search_query sun_sign moon_sign mood actions zodiac_element =
      build_search_query_spec sun_sign moon_sign mood actions zodiac_element ∧
    build_search_query sun_sign moon_sign mood actions zodiac_element =
      build_search_query sun_sign moon_sign mood (actions.take 3) zodiac_element ∧
    build_search_query sun_sign (some "") mood actions zodiac_element =
      build_search_query sun_sign none mood actions zodiac_element ∧
    (mood_keywords.lookup "great").getD "great" = "joyful positive uplifting" ∧
    (action_themes.lookup "meditated").getD "meditated" =
      "meditation spiritual practice" := by
  refine ⟨?_, ?_, ?_, rfl, rfl⟩
  · unfold build_search_query build_search_query_spec
    by_cases h : ScrapingSources.truthy moon_sign = true <;>
      simp [h, List.append_assoc]
  · unfold build_search_query
    simp [List.take_take]
  · unfold build_search_query
    simp [ScrapingSources.truthy]

end VectorService

namespace DailyScraper

lemma string_append_left_cancel {a b c : String} (h : a ++ b = a ++ c) :
    b = c := by
  have hd : a.data ++ b.data = a.data ++ c.data := by
    have := congrArg String.data h
    simpa [String.data_append] using this
  have hbc : b.data = c.data := List.append_cancel_left hd
  cases b
  cases c
  exact congrArg String.mk hbc

/-- C9 counterexample (to the claim as stated): the claim's key joins the
context with an underscore (`source[+"_"+context]+"-"+date`), but
`_upload_to_s3_and_supabase` joins it with a hyphen
(`f"{source}-{context}-{today}"`); the two differ on any sign-specific
document.  (The underscore form is the S3 *filename* pattern, not the
document id.) -/
theorem C9_counterexample :
    doc_id "astrostyle" "Aries" "2025-01-02" ≠
      doc_id_claimed "astrostyle" "Aries" "2025-01-02" ∧
    s3_filename "astrostyle" "Aries" "2025-01-02" =
      "daily/2025-01-02/astrostyle_Aries.json" := by
  constructor
  · decide
  · rfl

/-- C9 (amended): the document id is the deterministic key
`source[+"-"+context]+"-"+date` — the context segment joined with a hyphen
and present exactly when the context is not `"general"`, the date appended
last after a hyphen — so a same-day rerun of the same source and context
produces the identical id (the key is a function of source, context and
date), and a different date always produces a different id for the same
source and context. -/
theorem C9_doc_id_key (source context date : String) :
    doc_id source context date = doc_id_amended source context date ∧
    (∀ date2 : String,
      doc_id source context date = doc_id source context date2 → date = date2) := by
  constructor
  · unfold doc_id doc_id_amended
    by_cases h : context = "general" <;>
      simp [h, String.append_assoc, String.append_empty]
  · intro date2 hEq
    unfold doc_id at hEq
    by_cases h : context = "general"
    · simp only [h, ne_eq, not_true_eq_false, if_false] at hEq
      exact string_append_left_cancel hEq
    · simp only [ne_eq, h, not_false_eq_true, if_true] at hEq
      exact string_append_left_cancel hEq

/-- Witness for C9 (amended): the astrostyle Aries document on two
different days. -/
theorem C9_witness :
    doc_id "astrostyle" "Aries" "2025-01-02" =
      doc_id_amended "astrostyle" "Aries" "2025-01-02" ∧
    (doc_id "astrostyle" "Aries" "2025-01-02" =
        doc_id "astrostyle" "Aries" "2025-01-03" →
      "2025-01-02" = "2025-01-03") :=
  ⟨(C9_doc_id_key "astrostyle" "Aries" "2025-01-02").1,
   fun h => (C9_doc_id_key "astrostyle" "Aries" "2025-01-02").2 "2025-01-03" h⟩

end DailyScraper

namespace VectorService

/-- C6: the vector search returns at most `count` records, each with
similarity strictly greater than the threshold, ordered by descending
similarity; a stored record whose similarity exactly equals the threshold
is excluded. -/
theorem C6_search_semantics (store : List StoredDoc) (sim : StoredDoc → ℚ)
    (threshold : ℚ) (count : ℕ) :
    (match_documents store sim threshold count).length ≤ count ∧
    (∀ d ∈ match_documents store sim threshold count, threshold < sim d) ∧
    (match_documents store sim threshold count).Pairwise
      (fun a b => sim b ≤ sim a) ∧
    (∀ d ∈ store, sim d = threshold →
      d ∉ match_documents store sim threshold count) := by
  have hmem : ∀ d ∈ match_documents store sim threshold count,
      threshold < sim d := by
    intro d hd
    unfold match_documents at hd
    have h1 := List.mem_of_mem_take hd
    have h2 : d ∈ store.filter (fun d => decide (threshold < sim d)) :=
      (List.perm_insertionSort _ _).mem_iff.mp h1
    exact of_decide_eq_true (List.mem_filter.mp h2).2
  refine ⟨?_, hmem, ?_, ?_⟩
  · unfold match_documents
    exact List.length_take_le _ _
  · unfold match_documents
    apply List.Pairwise.sublist (List.take_sublist _ _)
    haveI : IsTotal StoredDoc (fun a b => sim b ≤ sim a) :=
      ⟨fun a b => le_total (sim b) (sim a)⟩
    haveI : IsTrans StoredDoc (fun a b => sim b ≤ sim a) :=
      ⟨fun a b c h1 h2 => le_trans h2 h1⟩
    exact List.sorted_insertionSort _ _
  · intro d _ hsim hmem2
    have := hmem d hmem2
    rw [hsim] at this
    exact lt_irrefl _ this

/-- Witness for C6: a two-record store in which one record sits exactly at
the 0.3 threshold (and is excluded) and one sits above it. -/
theorem C6_witness :
    ((match_documents [⟨"above", "y"⟩, ⟨"at", "x"⟩]
        (fun d => if d.id = "above" then 1 / 2 else 3 / 10) (3 / 10) 5).length ≤ 5) ∧
    ((⟨"at", "x"⟩ : StoredDoc) ∈ [(⟨"above", "y"⟩ : StoredDoc), ⟨"at", "x"⟩]) ∧
    ((fun d : StoredDoc => if d.id = "above" then (1 : ℚ) / 2 else 3 / 10)
        ⟨"at", "x"⟩ = 3 / 10) ∧
    ((⟨"at", "x"⟩ : StoredDoc) ∉ match_documents [⟨"above", "y"⟩, ⟨"at", "x"⟩]
        (fun d => if d.id = "above" then 1 / 2 else 3 / 10) (3 / 10) 5) :=
  ⟨(C6_search_semantics _ _ _ _).1,
   by decide,
   by simp [show ¬ (("at" : String) = "above") by decide],
   (C6_search_semantics _ _ _ _).2.2.2 ⟨"at", "x"⟩ (by decide)
     (by simp [show ¬ (("at" : String) = "above") by decide])⟩

/-- C7: request-time retrieval never raises and degrades to the empty
string: the modelled `retrieve_context` is a total function into `String`,
and it returns `""` whenever the query-time embedding call errors, whenever
the store search errors, and whenever the search returns no records — in
particular the search over an empty store always returns no records. -/
theorem C7_retrieval_degrades_to_empty
    (embed : String → Except String (List ℚ))
    (rpc : List ℚ → ℚ → ℕ → Except String (List SearchResult))
    (sun_sign : String) (moon_sign : Option String) (mood : String)
    (actions : List String) (zodiac_element : String) (max_results : ℕ) :
    (∀ e, embed (build_search_query sun_sign moon_sign mood actions
        zodiac_element) = .error e →
      retrieve_context embed rpc sun_sign moon_sign mood actions
        zodiac_element max_results = "") ∧
    (∀ emb e, embed (build_search_query sun_sign moon_sign mood actions
        zodiac_element) = .ok emb →
      rpc emb (3 / 10) max_results = .error e →
      retrieve_context embed rpc sun_sign moon_sign mood actions
        zodiac_element max_results = "") ∧
    (∀ emb, embed (build_search_query sun_sign moon_sign mood actions
        zodiac_element) = .ok emb →
      rpc emb (3 / 10) max_results = .ok [] →
      retrieve_context embed rpc sun_sign moon_sign mood actions
        zodiac_element max_results = "") ∧
    (∀ sim thr cnt, match_documents [] sim thr cnt = []) := by
  refine ⟨?_, ?_, ?_, ?_⟩
  · intro e he
    simp only [retrieve_context, he]
  · intro emb e hok herr
    simp only [retrieve_context, hok, herr]
  · intro emb hok hnil
    simp [retrieve_context, hok, hnil]
  · intro sim thr cnt
    simp [match_documents]

/-- Witness for C7: an embedding service that always raises. -/
theorem C7_witness :
    ((fun _ : String => (Except.error "boom" : Except String (List ℚ)))
      (build_search_query "Aries" none "great" [] "Fire") = .error "boom") ∧
    retrieve_context (fun _ => .error "boom") (fun _ _ _ => .ok [])
      "Aries" none "great" [] "Fire" 5 = "" :=
  ⟨rfl,
   (C7_retrieval_degrades_to_empty (fun _ => .error "boom") (fun _ _ _ => .ok [])
     "Aries" none "great" [] "Fire" 5).1 "boom" rfl⟩

lemma upsert_filter_eq (r : DocRecord) :
    ∀ table : List DocRecord, (table.map DocRecord.id).Nodup →
      (upsertRecord table r).filter (fun x => x.id == r.id) = [r] := by
  intro table
  induction table with
  | nil =>
    intro _
    simp [upsertRecord]
  | cons x xs ih =>
    intro hN
    rw [List.map_cons, List.nodup_cons] at hN
    obtain ⟨hxid, hxs⟩ := hN
    unfold upsertRecord
    by_cases hx : (x.id == r.id) = true
    · have hxr : x.id = r.id := beq_iff_eq.mp hx
      rw [if_pos (by simp [List.any_cons, hx])]
      rw [List.map_cons, if_pos hx, List.filter_cons_of_pos (by simp)]
      have hnone : (xs.map (fun y => if y.id == r.id then r else y)).filter
          (fun y => y.id == r.id) = [] := by
        rw [List.filter_eq_nil_iff]
        intro y hy
        rw [List.mem_map] at hy
        obtain ⟨z, hz, rfl⟩ := hy
        have hzne : z.id ≠ r.id := by
          intro hEq
          exact hxid (by rw [hxr, ← hEq]; exact List.mem_map_of_mem _ hz)
        rw [if_neg (by simpa using hzne)]
        simpa using hzne
      rw [hnone]
    · by_cases hany : xs.any (fun y => y.id == r.id) = true
      · rw [if_pos (by simp [List.any_cons, hany])]
        rw [List.map_cons, if_neg hx, List.filter_cons_of_neg (by simpa using hx)]
        have := ih hxs
        rw [upsertRecord, if_pos hany] at this
        exact this
      · rw [if_neg (by simp [List.any_cons]; exact ⟨by simpa using hx,
          by simpa [List.any_eq_true] using hany⟩)]
        rw [List.cons_append, List.filter_cons_of_neg (by simpa using hx),
          List.filter_append]
        have hnil : xs.filter (fun y => y.id == r.id) = [] := by
          rw [List.filter_eq_nil_iff]
          intro y hy
          intro hc
          exact hany (List.any_eq_true.mpr ⟨y, hy, hc⟩)
        rw [hnil]
        simp

lemma upsert_nodup (r : DocRecord) (table : List DocRecord)
    (hN : (table.map DocRecord.id).Nodup) :
    ((upsertRecord table r).map DocRecord.id).Nodup := by
  unfold upsertRecord
  by_cases hany : table.any (fun x => x.id == r.id) = true
  · rw [if_pos hany]
    have hfun : (fun x : DocRecord =>
        (if x.id == r.id then r else x).id) = fun x : DocRecord => x.id := by
      funext x
      by_cases h : (x.id == r.id) = true
      · rw [if_pos h]
        exact (beq_iff_eq.mp h).symm
      · rw [if_neg h]
    rw [List.map_map, Function.comp_def, hfun]
    exact hN
  · rw [if_neg hany]
    rw [List.map_append, List.map_singleton]
    rw [List.nodup_append]
    refine ⟨hN, List.nodup_singleton _, ?_⟩
    intro a ha hb
    rw [List.mem_singleton] at hb
    subst hb
    rw [List.mem_map] at ha
    obtain ⟨z, hz, hzid⟩ := ha
    exact hany (List.any_eq_true.mpr ⟨z, hz, beq_iff_eq.mpr hzid⟩)

/-- C2: `store_document` is an upsert keyed by the document id.  Starting
from any well-formed table (pairwise-distinct ids) and any embedding
service that succeeds on both contents: the call succeeds; after storing
twice under the same id there is exactly one record under that id, and it
is entirely the second call's record — content, metadata and embedding
(full replacement, never a merge); every record left under that id carries
the second content; and when the id was absent from the table the first
call inserts its record. -/
theorem C2_store_is_upsert_by_id (embed : String → Except String (List ℚ))
    (table : List DocRecord) (document_id c1 c2 : String) (m1 m2 : Metadata)
    (v1 v2 : List ℚ) (hN : (table.map DocRecord.id).Nodup)
    (h1 : embed c1 = .ok v1) (h2 : embed c2 = .ok v2) :
    (store_document embed table document_id c1 m1).1 = true ∧
    ((store_document embed (store_document embed table document_id c1 m1).2
        document_id c2 m2).2.filter (fun rec => rec.id == document_id)) =
      [{ id := document_id, content := c2, metadata := m2, embedding := v2,
         created_at := m2.scraped_at }] ∧
    (∀ rec ∈ (store_document embed (store_document embed table document_id c1
        m1).2 document_id c2 m2).2, rec.id = document_id → rec.content = c2) ∧
    (document_id ∉ table.map DocRecord.id →
      { id := document_id, content := c1, metadata := m1, embedding := v1,
        created_at := m1.scraped_at } ∈
        (store_document embed table document_id c1 m1).2) := by
  have e1 : store_document embed table document_id c1 m1 =
      (true, upsertRecord table
        { id := document_id, content := c1, metadata := m1, embedding := v1,
          created_at := m1.scraped_at }) := by
    unfold store_document
    rw [h1]
  have hN1 : (((store_document embed table document_id c1 m1).2).map
      DocRecord.id).Nodup := by
    rw [e1]
    exact upsert_nodup _ table hN
  have e2 : store_document embed (store_document embed table document_id c1
      m1).2 document_id c2 m2 =
      (true, upsertRecord (store_document embed table document_id c1 m1).2
        { id := document_id, content := c2, metadata := m2, embedding := v2,
          created_at := m2.scraped_at }) := by
    unfold store_document
    rw [h2]
  have hfilter := upsert_filter_eq
    { id := document_id, content := c2, metadata := m2, embedding := v2,
      created_at := m2.scraped_at }
    (store_document embed table document_id c1 m1).2 hN1
  refine ⟨by rw [e1], ?_, ?_, ?_⟩
  · rw [e2]
    exact hfilter
  · intro rec hrec hid
    have hmemf : rec ∈ ((store_document embed (store_document embed table
        document_id c1 m1).2 document_id c2 m2).2.filter
        (fun rec => rec.id == document_id)) :=
      List.mem_filter.mpr ⟨hrec, beq_iff_eq.mpr hid⟩
    rw [e2] at hmemf
    rw [hfilter] at hmemf
    rw [List.mem_singleton] at hmemf
    rw [hmemf]
  · intro habs
    rw [e1]
    unfold upsertRecord
    rw [if_neg (by
      intro hc
      rw [List.any_eq_true] at hc
      obtain ⟨z, hz, hzid⟩ := hc
      exact habs (by
        have : z.id = document_id := beq_iff_eq.mp hzid
        rw [← this]
        exact List.mem_map_of_mem _ hz))]
    exact List.mem_append_right _ (List.mem_singleton.mpr rfl)

/-- Concrete metadata values used by the C2 witness. -/
def m1w : Metadata :=
  { date := "d", source := "s", url := "u", tags := [],
    scraped_at := none, context := "general" }

/-- Concrete metadata values used by the C2 witness. -/
def m2w : Metadata :=
  { date := "d2", source := "s", url := "u", tags := [],
    scraped_at := none, context := "general" }

/-- Witness for C2: the empty table, an always-succeeding embedding
service, and two stores under the id `"doc"` with different contents. -/
theorem C2_witness :
    (([] : List DocRecord).map DocRecord.id).Nodup ∧
    ((store_document (fun _ => .ok [1]) [] "doc" "first" m1w).1 = true ∧
    ((store_document (fun _ => .ok [1])
        (store_document (fun _ => .ok [1]) [] "doc" "first" m1w).2
        "doc" "second" m2w).2.filter (fun rec => rec.id == "doc")) =
      [{ id := "doc", content := "second", metadata := m2w,
         embedding := [1], created_at := m2w.scraped_at }] ∧
    (∀ rec ∈ (store_document (fun _ => .ok [1])
        (store_document (fun _ => .ok [1]) [] "doc" "first" m1w).2
        "doc" "second" m2w).2, rec.id = "doc" → rec.content = "second") ∧
    ("doc" ∉ ([] : List DocRecord).map DocRecord.id →
      { id := "doc", content := "first", metadata := m1w,
        embedding := [1], created_at := m1w.scraped_at } ∈
        (store_document (fun _ => .ok [1]) [] "doc" "first" m1w).2)) :=
  ⟨List.nodup_nil,
   C2_store_is_upsert_by_id (fun _ => .ok [1]) [] "doc" "first" "second"
     m1w m2w [1] [1] List.nodup_nil rfl rfl⟩

end VectorService

namespace DailyScraper

open ScrapingSources

/-- The fold of `run_daily_scrape`'s nested loops, flattened over an
explicit list of `(source name, context)` attempts. -/
def runItems (outcome : String → String → Outcome)
    (ats : List (String × String)) (r : RunResults) : RunResults :=
  ats.foldl (fun r a => processTarget outcome a.1 a.2 r) r

/-- The summary ids of the attempts that succeed, in order. -/
def successIds (outcome : String → String → Outcome)
    (ats : List (String × String)) : List String :=
  (ats.filter (fun a => decide (outcome a.1 a.2 = Outcome.ok))).map
    (fun a => targetId a.1 a.2)

/-- The summary ids of the attempts that fail, in order. -/
def failureIds (outcome : String → String → Outcome)
    (ats : List (String × String)) : List String :=
  (ats.filter (fun a => decide (¬ outcome a.1 a.2 = Outcome.ok))).map
    (fun a => targetId a.1 a.2)

lemma RunResults.ext {x y : RunResults} (h1 : x.date = y.date)
    (h2 : x.scraped = y.scraped) (h3 : x.failed = y.failed)
    (h4 : x.uploaded = y.uploaded) (h5 : x.total = y.total) : x = y := by
  cases x
  cases y
  simp only at h1 h2 h3 h4 h5
  rw [h1, h2, h3, h4, h5]

lemma processSource_eq (outcome : String → String → Outcome)
    (s : ScrapingSource) (r : RunResults) :
    processSource outcome s r =
      runItems outcome (s.get_urls.map (fun u => (s.name, u.context))) r := by
  unfold processSource runItems
  rw [List.foldl_map]

lemma foldl_processSource_eq (outcome : String → String → Outcome) :
    ∀ (ss : List ScrapingSource) (r : RunResults),
      ss.foldl (fun r s => processSource outcome s r) r =
        runItems outcome (attemptsOf ss) r := by
  intro ss
  induction ss with
  | nil =>
    intro r
    simp [attemptsOf, runItems]
  | cons s ss ih =>
    intro r
    rw [List.foldl_cons, processSource_eq, ih]
    unfold attemptsOf runItems
    rw [List.flatMap_cons, List.foldl_append]

lemma runItems_spec (outcome : String → String → Outcome) :
    ∀ (ats : List (String × String)) (r : RunResults),
      (runItems outcome ats r).scraped = r.scraped ++ successIds outcome ats ∧
      (runItems outcome ats r).failed = r.failed ++ failureIds outcome ats ∧
      (runItems outcome ats r).uploaded = r.uploaded +
        (successIds outcome ats).length ∧
      (runItems outcome ats r).total = r.total ∧
      (runItems outcome ats r).date = r.date := by
  intro ats
  induction ats with
  | nil =>
    intro r
    simp [runItems, successIds, failureIds]
  | cons a ats ih =>
    intro r
    have hfold : runItems outcome (a :: ats) r =
        runItems outcome ats (processTarget outcome a.1 a.2 r) := by
      unfold runItems
      rw [List.foldl_cons]
    by_cases h : outcome a.1 a.2 = Outcome.ok
    · have hp : processTarget outcome a.1 a.2 r =
          { r with scraped := r.scraped ++ [targetId a.1 a.2],
                   uploaded := r.uploaded + 1 } := by
        unfold processTarget
        rw [if_pos h]
      rw [hfold, hp]
      obtain ⟨hs, hf, hu, ht, hd⟩ :=
        ih { r with scraped := r.scraped ++ [targetId a.1 a.2],
                    uploaded := r.uploaded + 1 }
      refine ⟨?_, ?_, ?_, ?_, ?_⟩
      · rw [hs]
        simp [successIds, List.filter_cons, h, List.append_assoc]
      · rw [hf]
        simp [failureIds, List.filter_cons, h]
      · rw [hu]
        simp [successIds, List.filter_cons, h]
        try omega
      · rw [ht]
      · rw [hd]
    · have hp : processTarget outcome a.1 a.2 r =
          { r with failed := r.failed ++ [targetId a.1 a.2] } := by
        unfold processTarget
        rw [if_neg h]
      rw [hfold, hp]
      obtain ⟨hs, hf, hu, ht, hd⟩ :=
        ih { r with failed := r.failed ++ [targetId a.1 a.2] }
      refine ⟨?_, ?_, ?_, ?_, ?_⟩
      · rw [hs]
        simp [successIds, List.filter_cons, h]
      · rw [hf]
        simp [failureIds, List.filter_cons, h, List.append_assoc]
      · rw [hu]
        simp [successIds, List.filter_cons, h]
      · rw [ht]
      · rw [hd]

/-- Closed form of the whole run: the ephemeris item followed by the
outcome split of every attempted target, with `uploaded` counting exactly
the successes and `total` fixed at `count_total_scrapes + 1`. -/
lemma run_daily_scrape_eq (ephemeris_ok : Bool)
    (outcome : String → String → Outcome) (today : String) :
    run_daily_scrape ephemeris_ok outcome today =
      { date := today,
        scraped := (if ephemeris_ok then [ephemerisId] else []) ++
          successIds outcome (attemptsOf get_enabled_sources),
        failed := (if ephemeris_ok then [] else [ephemerisId]) ++
          failureIds outcome (attemptsOf get_enabled_sources),
        uploaded := (if ephemeris_ok then 1 else 0) +
          (successIds outcome (attemptsOf get_enabled_sources)).length,
        total := count_total_scrapes + 1 } := by
  unfold run_daily_scrape
  rw [foldl_processSource_eq]
  obtain ⟨hs, hf, hu, ht, hd⟩ :=
    runItems_spec outcome (attemptsOf get_enabled_sources)
      (if ephemeris_ok then
        { date := today, scraped := [] ++ [ephemerisId], failed := [],
          uploaded := 0 + 1, total := count_total_scrapes + 1 }
       else
        { date := today, scraped := [], failed := [] ++ [ephemerisId],
          uploaded := 0, total := count_total_scrapes + 1 })
  cases ephemeris_ok
  · apply RunResults.ext <;> simp_all
  · apply RunResults.ext <;> simp_all

end DailyScraper

namespace DailyScraper

open ScrapingSources

lemma success_append_failure_perm (outcome : String → String → Outcome)
    (ats : List (String × String)) :
    List.Perm (successIds outcome ats ++ failureIds outcome ats)
      (ats.map (fun a => targetId a.1 a.2)) := by
  unfold successIds failureIds
  have hq : (fun a : String × String =>
      decide (¬ outcome a.1 a.2 = Outcome.ok)) =
      (fun a : String × String =>
        ! decide (outcome a.1 a.2 = Outcome.ok)) := by
    funext a
    exact decide_not
  rw [hq, ← List.map_append]
  exact (List.filter_append_perm
    (fun a => decide (outcome a.1 a.2 = Outcome.ok)) ats).map _

set_option maxRecDepth 10000 in
lemma attempts_length_eq :
    (attemptsOf get_enabled_sources).length = count_total_scrapes := by
  decide

set_option maxRecDepth 10000 in
lemma allAttemptIds_nodup : allAttemptIds.Nodup := by
  decide

/-- C10: for every run, whatever the per-target and ephemeris outcomes, the
returned summary is internally consistent: succeeded plus failed equals the
total attempted, the total is the sum of the expansions over the enabled
sources plus one for the ephemeris item, the uploaded count equals the
number of succeeded ids, and each attempted id lands in exactly one of the
two lists. -/
theorem C10_summary_consistent (ephemeris_ok : Bool)
    (outcome : String → String → Outcome) (today : String) :
    (run_daily_scrape ephemeris_ok outcome today).scraped.length +
        (run_daily_scrape ephemeris_ok outcome today).failed.length =
      (run_daily_scrape ephemeris_ok outcome today).total ∧
    (run_daily_scrape ephemeris_ok outcome today).total =
      count_total_scrapes + 1 ∧
    (run_daily_scrape ephemeris_ok outcome today).uploaded =
      (run_daily_scrape ephemeris_ok outcome today).scraped.length ∧
    ∀ id ∈ allAttemptIds,
      (id ∈ (run_daily_scrape ephemeris_ok outcome today).scraped ↔
        id ∉ (run_daily_scrape ephemeris_ok outcome today).failed) := by
  rw [run_daily_scrape_eq]
  have hperm0 :=
    success_append_failure_perm outcome (attemptsOf get_enabled_sources)
  have hlen2 : (successIds outcome (attemptsOf get_enabled_sources)).length +
      (failureIds outcome (attemptsOf get_enabled_sources)).length =
      count_total_scrapes := by
    have hl := hperm0.length_eq
    rw [List.length_append, List.length_map, attempts_length_eq] at hl
    exact hl
  refine ⟨?_, ?_, ?_, ?_⟩
  · cases ephemeris_ok <;> simp [List.length_append] <;> omega
  · rfl
  · cases ephemeris_ok <;> simp [List.length_append] <;> omega
  · intro id hid
    have hperm : List.Perm
        (((if ephemeris_ok then [ephemerisId] else []) ++
          successIds outcome (attemptsOf get_enabled_sources)) ++
         ((if ephemeris_ok then [] else [ephemerisId]) ++
          failureIds outcome (attemptsOf get_enabled_sources)))
        allAttemptIds := by
      unfold allAttemptIds
      cases ephemeris_ok
      · simp only [Bool.false_eq_true, if_neg, ite_false, List.nil_append]
        exact List.Perm.trans List.perm_middle (hperm0.cons _)
      · simp only [ite_true, List.nil_append, List.cons_append]
        exact hperm0.cons _
    have hnd2 := hperm.nodup_iff.mpr allAttemptIds_nodup
    rw [List.nodup_append] at hnd2
    dsimp only
    constructor
    · intro hsL hfM
      exact hnd2.2.2 hsL hfM
    · intro hnf
      rcases List.mem_append.mp (hperm.mem_iff.mpr hid) with h | h
      · exact h
      · exact absurd h hnf

set_option maxRecDepth 10000 in
/-- Witness for C10: the run in which every target and the ephemeris step
succeed, checked on the ephemeris id. -/
theorem C10_witness :
    ephemerisId ∈ allAttemptIds ∧
    (run_daily_scrape true (fun _ _ => Outcome.ok) "2025-01-02").scraped.length +
        (run_daily_scrape true (fun _ _ => Outcome.ok) "2025-01-02").failed.length =
      (run_daily_scrape true (fun _ _ => Outcome.ok) "2025-01-02").total ∧
    (run_daily_scrape true (fun _ _ => Outcome.ok) "2025-01-02").total =
      count_total_scrapes + 1 ∧
    (run_daily_scrape true (fun _ _ => Outcome.ok) "2025-01-02").uploaded =
      (run_daily_scrape true (fun _ _ => Outcome.ok) "2025-01-02").scraped.length ∧
    (ephemerisId ∈ (run_daily_scrape true (fun _ _ => Outcome.ok)
        "2025-01-02").scraped ↔
      ephemerisId ∉ (run_daily_scrape true (fun _ _ => Outcome.ok)
        "2025-01-02").failed) :=
  ⟨by decide,
   (C10_summary_consistent true (fun _ _ => Outcome.ok) "2025-01-02").1,
   (C10_summary_consistent true (fun _ _ => Outcome.ok) "2025-01-02").2.1,
   (C10_summary_consistent true (fun _ _ => Outcome.ok) "2025-01-02").2.2.1,
   (C10_summary_consistent true (fun _ _ => Outcome.ok) "2025-01-02").2.2.2
     ephemerisId (by decide)⟩

end DailyScraper

namespace ScrapingSources

/-- The prompt actually used for one target: `DailyScraper.scrape_source`
formats the source's extraction prompt with the target's context
(`prompt.format(sign=context)`). -/
def formatted_prompt (s : ScrapingSource) (context : String) : String :=
  pyFormatSign s.extraction_prompt context

set_option maxRecDepth 100000 in
/-- C3: for every source of the catalog — sign-specific sources (all of
which carry a URL template) expand to exactly 12 targets, one per zodiac
sign in order (the context list is exactly the twelve capitalized signs),
each target's URL being the template with the sign substituted and the sign
occurring in both the substituted URL and the formatted extraction prompt;
all other (single-page) sources expand to exactly one target with context
`"general"`, whose formatted prompt is the extraction prompt verbatim
(their prompts contain no sign placeholder). -/
theorem C3_catalog_expansion (s : ScrapingSource) (hs : s ∈ SCRAPING_SOURCES) :
    (s.source_type = "sign_specific" →
      truthy s.url_pattern = true ∧
      s.get_urls.length = 12 ∧
      s.get_urls.map UrlInfo.context = ZODIAC_SIGNS.map pyCapitalize ∧
      (∀ z ∈ ZODIAC_SIGNS,
        ({ url := pyFormatSign (s.url_pattern.getD "") z,
           context := pyCapitalize z } : UrlInfo) ∈ s.get_urls ∧
        containsChars z.data (pyFormatSign (s.url_pattern.getD "") z).data =
          true ∧
        containsChars (pyCapitalize z).data
          (formatted_prompt s (pyCapitalize z)).data = true)) ∧
    (s.source_type ≠ "sign_specific" →
      s.get_urls = [{ url := s.url.getD "", context := "general" }] ∧
      formatted_prompt s "general" = s.extraction_prompt) := by
  fin_cases hs <;> exact ⟨by decide, by decide⟩

set_option maxRecDepth 100000 in
/-- Witness for C3: the astrostyle source, a sign-specific member of the
catalog. -/
theorem C3_witness :
    src_astrostyle ∈ SCRAPING_SOURCES ∧
    src_astrostyle.source_type = "sign_specific" ∧
    src_astrostyle.get_urls.length = 12 ∧
    src_astrostyle.get_urls.map UrlInfo.context = ZODIAC_SIGNS.map pyCapitalize :=
  ⟨by decide, rfl,
   ((C3_catalog_expansion src_astrostyle (by decide)).1 rfl).2.1,
   ((C3_catalog_expansion src_astrostyle (by decide)).1 rfl).2.2.1⟩

end ScrapingSources

end Karmona
